import Mathlib

/-!
Shallow embedding of the user-service authentication core
(`src/utils/auth.py`, `src/db/models/user.py`, `src/db/dals/user_dal.py`,
`src/routers/auth_router.py`, `src/routers/admin_router.py`,
`src/routers/password_reset.py`, `src/routers/email_verification.py`).

Modelling conventions:
* Time is a `Nat` of seconds; `datetime.utcnow()` becomes an explicit `now`
  parameter.  `timedelta` comparisons translate to `Nat` comparisons.
* The two one-way hash primitives (bcrypt via passlib, sha256 via hashlib)
  are modelled as injective tagging functions; `verify_password` is the
  comparison against the tag, matching the functional contract
  `verify_password p (hash_password p) = true`.
* A JWT is modelled as its decoded form: the claims record together with the
  key and algorithm it was signed with; a `malformed` constructor stands for
  any undecodable string.  `jose.jwt.decode` checks the signature (key and
  algorithm equality in the model) and the `exp` claim (expired when
  `exp < now`), raising `JWTError` otherwise, which `verify_token` turns
  into `none`.
* The database is a `DBState`: the list of user rows and session rows.
  SQLAlchemy `UPDATE ... WHERE` statements become `List.map` with a
  condition; `SELECT ... -> scalar()` becomes `List.find?`.
* FastAPI endpoints become functions `DBState -> args -> Except ApiError r ×
  DBState`: the returned state carries any committed writes, including those
  committed before an exception is raised.
* Nondeterministic fresh values (`secrets.token_urlsafe`, new row ids) are
  explicit parameters.
-/

namespace UserService

/-- `UserStatus` from `db/models/user.py` (a `str` enum). -/
inductive UserStatus where
  | active
  | blocked
  | suspended
  | pending_verification
deriving DecidableEq

/-- The string value of a `UserStatus` member, as stored in the DB column and
as rendered by f-strings such as `f"Account is {user.status}."`. -/
def statusStr : UserStatus → String
  | .active => "active"
  | .blocked => "blocked"
  | .suspended => "suspended"
  | .pending_verification => "pending_verification"

/-- A row of the `user` table (`db/models/user.py`, class `User`).
`password` stores the bcrypt hash; token columns hold sha256 hex digests. -/
structure User where
  id : Nat
  name : String
  email : String
  mobile : String
  role : String
  password : String
  status : UserStatus
  is_email_verified : Bool
  created_at : Nat
  updated_at : Nat
  last_login : Option Nat
  blocked_at : Option Nat
  blocked_by : Option Nat
  blocked_reason : Option String
  reset_token : Option String
  reset_token_expires : Option Nat
  email_verification_token : Option String
  email_verification_expires : Option Nat
  verification_sent_at : Option Nat
deriving DecidableEq

/-- `User.is_active` from `db/models/user.py`. -/
def User.is_active (u : User) : Bool := u.status == .active

/-- `User.is_blocked` from `db/models/user.py`:
`self.status in [UserStatus.BLOCKED, UserStatus.SUSPENDED]`. -/
def User.is_blocked (u : User) : Bool :=
  u.status == .blocked || u.status == .suspended

/-- A row of the `user_sessions` table (`db/models/user.py`, `UserSession`). -/
structure UserSession where
  user_id : Nat
  token_id : String
  login_time : Nat
  logout_time : Option Nat
  ip_address : Option String
  user_agent : Option String
  is_active : Bool
deriving DecidableEq

/-- The persistent store: user rows and session rows. -/
structure DBState where
  users : List User
  sessions : List UserSession
deriving DecidableEq

/-- The error responses the routers raise (`HTTPException` by status code). -/
inductive ApiError where
  | validationError (detail : String)   -- 422, a pydantic validator raised
  | badRequest (detail : String)        -- 400
  | unauthorized (detail : String)      -- 401
  | forbidden (detail : String)         -- 403
  | notFound (detail : String)          -- 404
  | tooManyRequests (detail : String)   -- 429
  | internalError (detail : String)     -- 500
deriving DecidableEq

instance {ε α : Type} [DecidableEq ε] [DecidableEq α] :
    DecidableEq (Except ε α) := fun a b =>
  match a, b with
  | .ok x, .ok y =>
    if h : x = y then isTrue (by rw [h]) else isFalse (by simp [h])
  | .error x, .error y =>
    if h : x = y then isTrue (by rw [h]) else isFalse (by simp [h])
  | .ok _, .error _ => isFalse (by simp)
  | .error _, .ok _ => isFalse (by simp)

/- ------------------------------------------------------------------ -/
/- utils/auth.py                                                      -/
/- ------------------------------------------------------------------ -/

/-- Model of `hash_password` (`utils/auth.py`): bcrypt, modelled as an
injective one-way tag. -/
def hash_password (password : String) : String := "bcrypt$" ++ password

/-- Model of `verify_password` (`utils/auth.py`): checks a plaintext against
a stored hash. -/
def verify_password (plain hashed : String) : Bool :=
  hashed == hash_password plain

/-- ASCII uppercase letter, the `[A-Z]` character class. -/
def isUpperAZ (c : Char) : Bool := 65 ≤ c.toNat && c.toNat ≤ 90

/-- ASCII lowercase letter, the `[a-z]` character class. -/
def isLowerAZ (c : Char) : Bool := 97 ≤ c.toNat && c.toNat ≤ 122

/-- ASCII digit, the `\d` character class (modelled over ASCII). -/
def isDigit09 (c : Char) : Bool := 48 ≤ c.toNat && c.toNat ≤ 57

/-- The punctuation set of `validate_password_strength`:
the regex class containing `!@#$%^&*(),.?":\x7b\x7d|<>`. -/
def isSpecialChar (c : Char) : Bool :=
  ['!', '@', '#', '$', '%', '^', '&', '*', '(', ')', ',', '.', '?',
   '\"', '\x7b', '\x7d', '|', '<', '>'].contains c

/-- `re.search(r"[A-Z]", s)` succeeds. -/
def hasUpper (s : String) : Bool := s.data.any isUpperAZ

/-- `re.search(r"[a-z]", s)` succeeds. -/
def hasLower (s : String) : Bool := s.data.any isLowerAZ

/-- `re.search(r"\d", s)` succeeds (ASCII digits). -/
def hasDigit (s : String) : Bool := s.data.any isDigit09

/-- `re.search(r"[!@#$%^&*(),.?\":\x7b\x7d|<>]", s)` succeeds. -/
def hasSpecial (s : String) : Bool := s.data.any isSpecialChar

/-- `validate_password_strength` from `utils/auth.py`. -/
def validate_password_strength (password : String) : Bool × String :=
  if password.length < 8 then
    (false, "Password must be at least 8 characters long")
  else if !hasUpper password then
    (false, "Password must contain at least one uppercase letter")
  else if !hasLower password then
    (false, "Password must contain at least one lowercase letter")
  else if !hasDigit password then
    (false, "Password must contain at least one number")
  else if !hasSpecial password then
    (false, "Password must contain at least one special character")
  else
    (true, "Password is strong")

/-- A character of the regex class `[a-zA-Z0-9._%+-]` (email local part). -/
def isLocalChar (c : Char) : Bool :=
  isUpperAZ c || isLowerAZ c || isDigit09 c ||
    ['.', '_', '%', '+', '-'].contains c

/-- A character of the regex class `[a-zA-Z0-9.-]` (email domain part). -/
def isDomainChar (c : Char) : Bool :=
  isUpperAZ c || isLowerAZ c || isDigit09 c || ['.', '-'].contains c

/-- Whether a character list matches `[a-zA-Z0-9.-]+\.[a-zA-Z]\x7b2,\x7d$`:
split at the last dot; the tail must be at least two letters, the head a
nonempty run of domain characters. -/
def domainOk (cs : List Char) : Bool :=
  let rev := cs.reverse
  let tld := rev.takeWhile (fun c => isUpperAZ c || isLowerAZ c)
  match rev.drop tld.length with
  | '.' :: ds => decide (2 ≤ tld.length) && !ds.isEmpty && ds.all isDomainChar
  | _ => false

/-- `validate_email` from `utils/auth.py`: the regex
`^[a-zA-Z0-9._%+-]+@[a-zA-Z0-9.-]+\.[a-zA-Z]\x7b2,\x7d$`. -/
def validate_email (email : String) : Bool × String :=
  let cs := email.data
  let loc := cs.takeWhile (fun c => c != '@')
  match cs.drop loc.length with
  | '@' :: dom =>
    if !loc.isEmpty && loc.all isLocalChar && !dom.contains '@' && domainOk dom
    then (true, "Valid email")
    else (false, "Invalid email format")
  | _ => (false, "Invalid email format")

/-- `re.sub(r'[^\d+]', '', mobile)` from `validate_mobile`. -/
def clean_mobile (mobile : String) : String :=
  String.mk (mobile.data.filter (fun c => isDigit09 c || c == '+'))

/-- `validate_mobile` from `utils/auth.py`. -/
def validate_mobile (mobile : String) : Bool × String :=
  let c := clean_mobile mobile
  if c.length < 8 then (false, "Mobile number too short")
  else if c.length > 15 then (false, "Mobile number too long")
  else (true, "Valid mobile number")

/-- `str.lower()` (modelled over ASCII). -/
def toLowerStr (s : String) : String := String.mk (s.data.map Char.toLower)

/-- A Python whitespace character, as stripped by `str.strip()`. -/
def isPySpace (c : Char) : Bool :=
  [' ', '\t', '\n', '\r', '\x0b', '\x0c'].contains c

/-- `str.strip()`: drop leading and trailing whitespace. -/
def stripStr (s : String) : String :=
  String.mk (((s.data.dropWhile isPySpace).reverse.dropWhile
    isPySpace).reverse)

/-- `int(s)` restricted to the nonnegative digit strings the service feeds
it (`sub` is always `str(user.id)`); any other shape raises, modelled as
`none`. -/
def parseNat (s : String) : Option Nat :=
  if !s.data.isEmpty && s.data.all isDigit09 then
    some (s.data.foldl (fun n c => n * 10 + (c.toNat - 48)) 0)
  else none

/-- Stand-in for the `SECRET_KEY` environment value loaded in
`db/config.py`; every property proved here is independent of its value. -/
def SECRET_KEY : String := "env:SECRET_KEY"

/-- `ALGORITHM` from `db/config.py` (default `HS256`). -/
def ALGORITHM : String := "HS256"

/-- `ACCESS_TOKEN_EXPIRE_MINUTES` from `db/config.py` (default 30). -/
def ACCESS_TOKEN_EXPIRE_MINUTES : Nat := 30

/-- The decoded claim set of an access token: the `data` dict passed to
`create_access_token` plus the `exp`, `iat` and `jti` claims it adds. -/
structure JwtClaims where
  sub : Option String
  email : Option String
  role : Option String
  exp : Nat
  iat : Nat
  jti : Option String
deriving DecidableEq

/-- A structurally well-formed signed token: its claims together with the
key and algorithm that signed it. -/
structure Jwt where
  claims : JwtClaims
  key : String
  alg : String
deriving DecidableEq

/-- What a caller may present as a bearer token: a decodable signed token or
an undecodable string. -/
inductive JwtInput where
  | signed (j : Jwt)
  | malformed (raw : String)
deriving DecidableEq

/-- `create_access_token` from `utils/auth.py`.  `data` is the three-field
dict the login endpoint passes; `expires_delta` is in seconds; `token_id` is
the fresh `secrets.token_urlsafe(32)` value, made an explicit parameter.
Returns the encoded token and the token id, as the source does. -/
def create_access_token (sub email role : Option String)
    (expires_delta : Option Nat) (now : Nat) (token_id : String) :
    Jwt × String :=
  let expire := match expires_delta with
    | some d => now + d
    | none => now + ACCESS_TOKEN_EXPIRE_MINUTES * 60
  (⟨⟨sub, email, role, expire, now, some token_id⟩, SECRET_KEY, ALGORITHM⟩,
   token_id)

/-- `verify_token` from `utils/auth.py`: `jose.jwt.decode` succeeds when the
token decodes, its signature was made with `SECRET_KEY` under `ALGORITHM`,
and its `exp` claim has not passed (expired iff `exp < now`); any
`JWTError` is caught and becomes `none` — the function never raises. -/
def verify_token (tok : JwtInput) (now : Nat) : Option JwtClaims :=
  match tok with
  | .malformed _ => none
  | .signed j =>
    if j.key == SECRET_KEY && j.alg == ALGORITHM && !decide (j.claims.exp < now)
    then some j.claims
    else none

/- ------------------------------------------------------------------ -/
/- db/dals/user_dal.py  (UserDAL, over an explicit DBState)           -/
/- ------------------------------------------------------------------ -/

/-- `UserDAL.get_user`: `SELECT ... WHERE User.id == int(user_id)` then
`scalar()` (the first matching row or `None`). -/
def get_user (st : DBState) (uid : Nat) : Option User :=
  st.users.find? (fun u => u.id == uid)

/-- `UserDAL.get_user_by_email`: `SELECT ... WHERE User.email == email`. -/
def get_user_by_email (st : DBState) (email : String) : Option User :=
  st.users.find? (fun u => u.email == email)

/-- An `UPDATE user SET ... WHERE id == uid` statement: applies `f` to every
row whose id matches. -/
def updateUserById (st : DBState) (uid : Nat) (f : User → User) : DBState :=
  { st with users := st.users.map (fun u => if u.id == uid then f u else u) }

/-- `UserDAL.update_last_login`. -/
def update_last_login (st : DBState) (uid : Nat) (now : Nat) : DBState :=
  updateUserById st uid (fun u => { u with last_login := some now })

/-- `UserDAL.authenticate_user`: returns the user only when the row exists,
`is_active()` holds and the password verifies (evaluated in that order, so a
non-active account fails before its password is ever checked); on success
also issues the `update_last_login` write. -/
def authenticate_user (st : DBState) (email password : String) (now : Nat) :
    Option User × DBState :=
  match get_user_by_email st email with
  | some u =>
    if u.is_active && verify_password password u.password then
      (some u, update_last_login st u.id now)
    else (none, st)
  | none => (none, st)

/-- `UserDAL.block_user`: the status/blocked-fields update. -/
def dal_block_user (st : DBState) (uid admin_id : Nat)
    (reason : Option String) (now : Nat) : DBState :=
  updateUserById st uid (fun u =>
    { u with status := .blocked, blocked_at := some now,
             blocked_by := some admin_id, blocked_reason := reason,
             updated_at := now })

/-- `UserDAL.unblock_user`. -/
def dal_unblock_user (st : DBState) (uid : Nat) (now : Nat) : DBState :=
  updateUserById st uid (fun u =>
    { u with status := .active, blocked_at := none, blocked_by := none,
             blocked_reason := none, updated_at := now })

/-- `UserDAL.suspend_user`. -/
def dal_suspend_user (st : DBState) (uid admin_id : Nat)
    (reason : Option String) (now : Nat) : DBState :=
  updateUserById st uid (fun u =>
    { u with status := .suspended, blocked_at := some now,
             blocked_by := some admin_id, blocked_reason := reason,
             updated_at := now })

/-- `UserDAL.create_session`: inserts one active session row. -/
def create_session (st : DBState) (uid : Nat) (token_id : String)
    (ip ua : Option String) (now : Nat) : DBState :=
  { st with sessions := st.sessions ++
      [{ user_id := uid, token_id := token_id, login_time := now,
         logout_time := none, ip_address := ip, user_agent := ua,
         is_active := true }] }

/-- `UserDAL.end_session`: `UPDATE user_sessions SET logout_time=now,
is_active=false WHERE token_id == tid`. -/
def end_session (st : DBState) (tid : String) (now : Nat) : DBState :=
  { st with sessions := st.sessions.map (fun s =>
      if s.token_id == tid then
        { s with logout_time := some now, is_active := false }
      else s) }

/-- `UserDAL.get_active_sessions`. -/
def get_active_sessions (st : DBState) (uid : Nat) : List UserSession :=
  st.sessions.filter (fun s => s.user_id == uid && s.is_active)

/-- `UserDAL.set_password_reset_token`. -/
def set_password_reset_token (st : DBState) (uid : Nat) (tokenHash : String)
    (expires_at now : Nat) : DBState :=
  updateUserById st uid (fun u =>
    { u with reset_token := some tokenHash,
             reset_token_expires := some expires_at, updated_at := now })

/-- `UserDAL.get_user_by_reset_token`. -/
def get_user_by_reset_token (st : DBState) (tokenHash : String) :
    Option User :=
  st.users.find? (fun u => u.reset_token == some tokenHash)

/-- `UserDAL.clear_password_reset_token`. -/
def clear_password_reset_token (st : DBState) (uid : Nat) (now : Nat) :
    DBState :=
  updateUserById st uid (fun u =>
    { u with reset_token := none, reset_token_expires := none,
             updated_at := now })

/-- `UserDAL.update_password_with_reset`: one `UPDATE` that stores the new
password hash and clears both reset-token fields. -/
def update_password_with_reset (st : DBState) (uid : Nat)
    (new_password : String) (now : Nat) : DBState :=
  updateUserById st uid (fun u =>
    { u with password := hash_password new_password, reset_token := none,
             reset_token_expires := none, updated_at := now })

/-- `UserDAL.set_email_verification_token`. -/
def set_email_verification_token (st : DBState) (uid : Nat)
    (tokenHash : String) (expires_at now : Nat) : DBState :=
  updateUserById st uid (fun u =>
    { u with email_verification_token := some tokenHash,
             email_verification_expires := some expires_at,
             verification_sent_at := some now, updated_at := now })

/-- `UserDAL.get_user_by_verification_token`. -/
def get_user_by_verification_token (st : DBState) (tokenHash : String) :
    Option User :=
  st.users.find? (fun u => u.email_verification_token == some tokenHash)

/-- `UserDAL.verify_user_email`: one `UPDATE` that sets
`is_email_verified=true` and clears both verification-token fields. -/
def verify_user_email (st : DBState) (uid : Nat) (now : Nat) : DBState :=
  updateUserById st uid (fun u =>
    { u with is_email_verified := true, email_verification_token := none,
             email_verification_expires := none, updated_at := now })

/-- `UserDAL.clear_email_verification_token` (for expired tokens). -/
def clear_email_verification_token (st : DBState) (uid : Nat) (now : Nat) :
    DBState :=
  updateUserById st uid (fun u =>
    { u with email_verification_token := none,
             email_verification_expires := none, updated_at := now })

/-- `UserDAL.can_resend_verification`: true when the user row is missing,
never sent, or the cooldown has elapsed
(`(utcnow - verification_sent_at).total_seconds() > cooldown*60`). -/
def can_resend_verification (st : DBState) (uid : Nat)
    (cooldown_minutes now : Nat) : Bool :=
  match get_user st uid with
  | none => true
  | some u =>
    match u.verification_sent_at with
    | none => true
    | some t => decide (now - t > cooldown_minutes * 60)

/- ------------------------------------------------------------------ -/
/- routers/auth_router.py                                             -/
/- ------------------------------------------------------------------ -/

/-- The `Token` response model of the login endpoint. -/
structure TokenResponse where
  access_token : Jwt
  token_type : String
  expires_in : Nat
deriving DecidableEq

/-- The row `UserDAL.create_user` inserts for the register endpoint:
`status=ACTIVE`, `role` as passed (`'user'`), hashed password, the
`is_email_verified` column default `false`, empty token fields. -/
def create_user_row (name email mobile password : String) (now newId : Nat) :
    User :=
  { id := newId, name := name, email := email, mobile := mobile,
    role := "user", password := hash_password password, status := .active,
    is_email_verified := false, created_at := now, updated_at := now,
    last_login := none, blocked_at := none, blocked_by := none,
    blocked_reason := none, reset_token := none, reset_token_expires := none,
    email_verification_token := none, email_verification_expires := none,
    verification_sent_at := none }

/-- The `/auth/register` endpoint (`routers/auth_router.py`).  The pydantic
`UserRegister` validators run first (name length after strip, email format
then lowercase+strip, mobile, password strength; a failure is a 422); then
the duplicate-email check and the insert.  `newId` is the fresh surrogate
key the store assigns. -/
def register (st : DBState) (rawName rawEmail rawMobile password : String)
    (now newId : Nat) : Except ApiError User × DBState :=
  let name := stripStr rawName
  if name.length < 2 then
    (.error (.validationError "Name must be at least 2 characters long"), st)
  else if name.length > 100 then
    (.error (.validationError "Name must be less than 100 characters"), st)
  else if !(validate_email rawEmail).1 then
    (.error (.validationError (validate_email rawEmail).2), st)
  else if !(validate_mobile rawMobile).1 then
    (.error (.validationError (validate_mobile rawMobile).2), st)
  else if !(validate_password_strength password).1 then
    (.error (.validationError (validate_password_strength password).2), st)
  else
    let email := stripStr (toLowerStr rawEmail)
    let mobile := stripStr rawMobile
    match get_user_by_email st email with
    | some _ => (.error (.badRequest "Email already registered"), st)
    | none =>
      let newUser := create_user_row name email mobile password now newId
      (.ok newUser, { st with users := st.users ++ [newUser] })

/-- The `/auth/login` endpoint (`routers/auth_router.py`).  The `UserLogin`
validator lowercases the email; `authenticate_user` runs; a `None` result is
a generic 401; a blocked result would be a 403 with a status-mentioning
detail; on success a token is minted and a session row recorded.
`token_id` is the fresh `secrets.token_urlsafe(32)` value. -/
def login (st : DBState) (rawEmail password : String) (now : Nat)
    (token_id : String) (ip ua : Option String) :
    Except ApiError TokenResponse × DBState :=
  let email := stripStr (toLowerStr rawEmail)
  match authenticate_user st email password now with
  | (none, st1) =>
    (.error (.unauthorized "Incorrect email or password"), st1)
  | (some u, st1) =>
    if u.is_blocked then
      (.error (.forbidden ("Account is " ++ statusStr u.status ++
        ". Contact administrator for assistance.")), st1)
    else
      let tok := (create_access_token (some (toString u.id)) (some u.email)
        (some u.role) (some (ACCESS_TOKEN_EXPIRE_MINUTES * 60)) now
        token_id).1
      let st2 := create_session st1 u.id token_id ip ua now
      (.ok { access_token := tok, token_type := "bearer",
             expires_in := ACCESS_TOKEN_EXPIRE_MINUTES * 60 }, st2)

/-- The `get_current_user` dependency (`routers/auth_router.py`): verifies
the bearer token, extracts `sub` and `jti`, loads the user row by id, and
rejects missing or blocked accounts.  The extracted `jti` is never compared
against the session table — the function performs no session lookup. -/
def get_current_user (st : DBState) (tok : JwtInput) (now : Nat) :
    Except ApiError User :=
  match verify_token tok now with
  | none => .error (.unauthorized "Invalid authentication credentials")
  | some payload =>
    match payload.sub, payload.jti with
    | some user_id, some _token_id =>
      match parseNat user_id with
      | none => .error (.internalError "invalid user id in token")
      | some uid =>
        match get_user st uid with
        | none => .error (.unauthorized "User not found")
        | some u =>
          if u.is_blocked then
            .error (.forbidden ("Account is " ++ statusStr u.status ++
              ". Contact administrator."))
          else .ok u
    | _, _ => .error (.unauthorized "Invalid token format")

/-- The `/auth/logout` endpoint (`routers/auth_router.py`): the
`get_current_user` dependency runs first; then the token is re-verified and,
when it carries a `jti`, that session row is ended. -/
def logout (st : DBState) (tok : JwtInput) (now : Nat) :
    Except ApiError String × DBState :=
  match get_current_user st tok now with
  | .error e => (.error e, st)
  | .ok _ =>
    match verify_token tok now with
    | some payload =>
      match payload.jti with
      | some tid => (.ok "Successfully logged out", end_session st tid now)
      | none => (.ok "Successfully logged out", st)
    | none => (.ok "Successfully logged out", st)

/-- The `require_admin` dependency (`routers/auth_router.py`). -/
def require_admin (u : User) : Except ApiError User :=
  if u.role != "admin" then
    .error (.forbidden "Admin access required")
  else if !u.is_active then
    .error (.forbidden "Admin account is not active")
  else .ok u

/- ------------------------------------------------------------------ -/
/- routers/admin_router.py                                            -/
/- ------------------------------------------------------------------ -/

/-- The `/admin/users/\x7buser_id\x7d/block` endpoint: after `require_admin`,
looks up the target, rejects self-blocking and admin targets (both as HTTP
400), then applies the block. -/
def block_user (st : DBState) (current_user : User) (user_id : Nat)
    (reason : Option String) (now : Nat) :
    Except ApiError (String × User) × DBState :=
  match require_admin current_user with
  | .error e => (.error e, st)
  | .ok cu =>
    match get_user st user_id with
    | none => (.error (.notFound "User not found"), st)
    | some target =>
      if target.id == cu.id then
        (.error (.badRequest "Cannot block yourself"), st)
      else if target.role == "admin" then
        (.error (.badRequest "Cannot block other administrators"), st)
      else
        let st1 := dal_block_user st user_id cu.id reason now
        match get_user st1 user_id with
        | some updated =>
          (.ok ("User " ++ target.name ++ " has been blocked", updated), st1)
        | none =>
          (.ok ("User " ++ target.name ++ " has been blocked", target), st1)

/-- The `/admin/users/\x7buser_id\x7d/unblock` endpoint: after
`require_admin`, looks up the target and unblocks it — there is no
self-target guard and no admin-target guard. -/
def unblock_user (st : DBState) (current_user : User) (user_id : Nat)
    (now : Nat) : Except ApiError (String × User) × DBState :=
  match require_admin current_user with
  | .error e => (.error e, st)
  | .ok _cu =>
    match get_user st user_id with
    | none => (.error (.notFound "User not found"), st)
    | some target =>
      let st1 := dal_unblock_user st user_id now
      match get_user st1 user_id with
      | some updated =>
        (.ok ("User " ++ target.name ++ " has been unblocked", updated), st1)
      | none =>
        (.ok ("User " ++ target.name ++ " has been unblocked", target), st1)

/-- The `/admin/users/\x7buser_id\x7d/suspend` endpoint: after
`require_admin`, looks up the target and rejects only self-suspension (HTTP
400) — unlike `block_user` it has no admin-target guard. -/
def suspend_user (st : DBState) (current_user : User) (user_id : Nat)
    (reason : Option String) (now : Nat) :
    Except ApiError (String × User) × DBState :=
  match require_admin current_user with
  | .error e => (.error e, st)
  | .ok cu =>
    match get_user st user_id with
    | none => (.error (.notFound "User not found"), st)
    | some target =>
      if target.id == cu.id then
        (.error (.badRequest "Cannot suspend yourself"), st)
      else
        let st1 := dal_suspend_user st user_id cu.id reason now
        match get_user st1 user_id with
        | some updated =>
          (.ok ("User " ++ target.name ++ " has been suspended", updated),
           st1)
        | none =>
          (.ok ("User " ++ target.name ++ " has been suspended", target),
           st1)

/- ------------------------------------------------------------------ -/
/- routers/password_reset.py                                          -/
/- ------------------------------------------------------------------ -/

/-- `hash_token` from `routers/password_reset.py` and
`routers/email_verification.py` (sha256 hex digest), modelled as an
injective one-way tag. -/
def hash_token (token : String) : String := "sha256$" ++ token

/-- `is_token_expired` from `routers/password_reset.py` and
`routers/email_verification.py`: a missing expiry counts as expired;
otherwise expired iff `utcnow > expires_at`. -/
def is_token_expired (expires_at : Option Nat) (now : Nat) : Bool :=
  match expires_at with
  | none => true
  | some e => decide (now > e)

/-- The `PasswordResetResponse` model. -/
structure PasswordResetResponse where
  message : String
  success : Bool
deriving DecidableEq

/-- The `/auth/forgot-password` endpoint (`routers/password_reset.py`).
The request validator checks the email format (422 on failure) and
lowercases it.  An unknown email and a known active one both answer with
the same affirmative message; a known non-active account answers with a
distinct message; only for active accounts is a reset token minted
(`rawToken` is the fresh `secrets.token_urlsafe(32)` value). -/
def forgot_password (st : DBState) (rawEmail : String) (now : Nat)
    (rawToken : String) : Except ApiError PasswordResetResponse × DBState :=
  if !(validate_email rawEmail).1 then
    (.error (.validationError "Invalid email format"), st)
  else
    let email := toLowerStr rawEmail
    match get_user_by_email st email with
    | none =>
      (.ok { message := "If the email exists, a reset link has been sent.",
             success := true }, st)
    | some u =>
      if u.status != .active then
        (.ok { message := "Account is not active. Please contact support.",
               success := false }, st)
      else
        let st1 := set_password_reset_token st u.id (hash_token rawToken)
          (now + 3600) now
        (.ok { message := "If the email exists, a reset link has been sent.",
               success := true }, st1)

/-- The `/auth/reset-password` endpoint (`routers/password_reset.py`):
checks the new password's strength, hashes the presented raw token and
looks it up; a miss is a 400 "Invalid or expired reset token"; an expired
match clears the stored token (committed before the 400 is raised, so the
write survives the failure); a live match updates the password and clears
the token in one state change. -/
def reset_password (st : DBState) (rawToken new_password : String)
    (now : Nat) : Except ApiError PasswordResetResponse × DBState :=
  if !(validate_password_strength new_password).1 then
    (.error (.badRequest (validate_password_strength new_password).2), st)
  else
    match get_user_by_reset_token st (hash_token rawToken) with
    | none => (.error (.badRequest "Invalid or expired reset token"), st)
    | some u =>
      if is_token_expired u.reset_token_expires now then
        (.error (.badRequest
           "Reset token has expired. Please request a new one."),
         clear_password_reset_token st u.id now)
      else
        (.ok { message := "Password has been reset successfully. You can now login with your new password.",
               success := true },
         update_password_with_reset st u.id new_password now)

/- ------------------------------------------------------------------ -/
/- routers/email_verification.py                                      -/
/- ------------------------------------------------------------------ -/

/-- The `EmailVerificationResponse` model. -/
structure EmailVerificationResponse where
  message : String
  success : Bool
  is_verified : Option Bool
deriving DecidableEq

/-- The `/auth/verify-email` endpoint (`routers/email_verification.py`):
hashes the presented token and looks it up; a miss is a 400; an
already-verified account answers success immediately, before the expiry
check and with no state change; an expired token is cleared (the write
survives the 400); otherwise the account is marked verified and the token
cleared in one state change. -/
def verify_email (st : DBState) (rawToken : String) (now : Nat) :
    Except ApiError EmailVerificationResponse × DBState :=
  match get_user_by_verification_token st (hash_token rawToken) with
  | none =>
    (.error (.badRequest "Invalid or expired verification token"), st)
  | some u =>
    if u.is_email_verified then
      (.ok { message := "Email is already verified.", success := true,
             is_verified := some true }, st)
    else if is_token_expired u.email_verification_expires now then
      (.error (.badRequest
         "Verification token has expired. Please request a new one."),
       clear_email_verification_token st u.id now)
    else
      (.ok { message := "Email verified successfully! Your account is now fully activated.",
             success := true, is_verified := some true },
       verify_user_email st u.id now)

/-- The `/auth/resend-verification` endpoint
(`routers/email_verification.py`).  The request validator checks the email
format and lowercases it.  An unknown email, an already-verified account,
and an unverified account each answer with a different message; the
unverified case is rate limited and mints a fresh token (`rawToken`). -/
def resend_verification (st : DBState) (rawEmail : String) (now : Nat)
    (rawToken : String) :
    Except ApiError EmailVerificationResponse × DBState :=
  if !(validate_email rawEmail).1 then
    (.error (.validationError "Invalid email format"), st)
  else
    let email := toLowerStr rawEmail
    match get_user_by_email st email with
    | none =>
      (.ok { message := "If the email exists and is unverified, a verification link has been sent.",
             success := true, is_verified := none }, st)
    | some u =>
      if u.is_email_verified then
        (.ok { message := "Email is already verified.", success := true,
               is_verified := some true }, st)
      else if !can_resend_verification st u.id 5 now then
        (.error (.tooManyRequests
           "Please wait 5 minutes before requesting another verification email."),
         st)
      else
        let st1 := set_email_verification_token st u.id
          (hash_token rawToken) (now + 24 * 3600) now
        (.ok { message := "Verification email sent successfully. Please check your inbox.",
               success := true, is_verified := some false }, st1)

/- ------------------------------------------------------------------ -/
/- Concrete sample data for witnesses and counterexamples             -/
/- ------------------------------------------------------------------ -/

/-- An active, unverified registered user (the spec's Alice). -/
def aliceActive : User :=
  { id := 1, name := "Alice", email := "alice@x.com", mobile := "12345678",
    role := "user", password := hash_password "Sw0rd!abc",
    status := .active, is_email_verified := false, created_at := 0,
    updated_at := 0, last_login := none, blocked_at := none,
    blocked_by := none, blocked_reason := none, reset_token := none,
    reset_token_expires := none, email_verification_token := none,
    email_verification_expires := none, verification_sent_at := none }

/-- Alice after an admin block. -/
def aliceBlocked : User :=
  { aliceActive with status := .blocked, blocked_at := some 50,
                     blocked_by := some 9, blocked_reason := some "test" }

/-- An active admin account. -/
def adminRoot : User :=
  { aliceActive with id := 10, name := "Root", email := "root@x.com",
                     role := "admin" }

/-- A second active admin account. -/
def adminEve : User :=
  { aliceActive with id := 11, name := "Eve", email := "eve@x.com",
                     role := "admin" }

/-- An unverified user holding an outstanding verification token. -/
def bobUnverified : User :=
  { aliceActive with id := 2, name := "Bob", email := "bob@x.com",
                     email_verification_token := some (hash_token "vtok"),
                     email_verification_expires := some 5000 }

/-- A user holding an outstanding (live until 1000) reset token. -/
def carolReset : User :=
  { aliceActive with id := 3, name := "Carol", email := "carol@x.com",
                     reset_token := some (hash_token "rtok"),
                     reset_token_expires := some 1000 }

/-- A verified user still holding a stored verification token hash. -/
def danVerified : User :=
  { aliceActive with id := 4, name := "Dan", email := "dan@x.com",
                     is_email_verified := true,
                     email_verification_token := some (hash_token "dtok"),
                     email_verification_expires := some 10 }

/-- The access token minted for Alice at time 100 with session id `tid1`
(expiry 100 + 1800 = 1900). -/
def aliceToken : Jwt :=
  (create_access_token (some "1") (some "alice@x.com") (some "user")
    (some 1800) 100 "tid1").1

/-- Alice's logged-in state: her user row and the open session `tid1`. -/
def aliceLoggedIn : DBState :=
  { users := [aliceActive],
    sessions := [{ user_id := 1, token_id := "tid1", login_time := 100,
                   logout_time := none, ip_address := none,
                   user_agent := none, is_active := true }] }

/- ------------------------------------------------------------------ -/
/- Claim theorems                                                     -/
/- ------------------------------------------------------------------ -/

/-- C7: `checkStrength` (`validate_password_strength`) accepts a password
iff its length is at least 8 and it contains at least one uppercase letter,
one lowercase letter, one digit, and one symbol of the defined punctuation
set; in particular `"Abcdef1!"` passes and `"abcdef1!"` fails. -/
theorem checkStrength_accepts_iff :
    (∀ p : String, (validate_password_strength p).1 = true ↔
      (8 ≤ p.length ∧ hasUpper p = true ∧ hasLower p = true ∧
       hasDigit p = true ∧ hasSpecial p = true)) ∧
    (validate_password_strength "Abcdef1!").1 = true ∧
    (validate_password_strength "abcdef1!").1 = false := by
  refine ⟨fun p => ?_, by decide, by decide⟩
  simp only [validate_password_strength]
  split_ifs with h1 h2 h3 h4 h5 <;> simp_all

/-- C6: a token freshly issued with ttl verifies successfully (returning the
claims) when checked before `now + ttl`, and `verify_token` returns `none`
— it is total, never raising — once the expiry has elapsed, on signature
mismatch (a different signing key), and on a malformed payload. -/
theorem issued_token_verifies_until_expiry (sub email role : Option String)
    (ttl now t1 t2 : Nat) (tid k raw : String)
    (h1 : t1 < now + ttl) (h2 : now + ttl < t2) (hk : k ≠ SECRET_KEY) :
    (create_access_token sub email role (some ttl) now tid).1.claims.exp
      = now + ttl ∧
    (create_access_token sub email role (some ttl) now tid).2 = tid ∧
    verify_token
      (.signed (create_access_token sub email role (some ttl) now tid).1) t1
      = some (create_access_token sub email role (some ttl) now tid).1.claims ∧
    verify_token
      (.signed (create_access_token sub email role (some ttl) now tid).1) t2
      = none ∧
    verify_token (.signed
      { claims := (create_access_token sub email role (some ttl) now tid).1.claims,
        key := k, alg := ALGORITHM }) t1 = none ∧
    verify_token (.malformed raw) t1 = none := by
  have hA : ¬ (now + ttl < t1) := by omega
  simp [create_access_token, verify_token, hA, h2, hk]

/-- Concrete instantiation of `issued_token_verifies_until_expiry`: a token
issued at time 100 with ttl 1800 verifies at 500 and fails at 2000, under a
wrong key, and malformed. -/
theorem issued_token_verifies_until_expiry_witness :
    (create_access_token (some "1") none none (some 1800) 100 "tid").1.claims.exp
      = 100 + 1800 ∧
    (create_access_token (some "1") none none (some 1800) 100 "tid").2 = "tid" ∧
    verify_token
      (.signed (create_access_token (some "1") none none (some 1800) 100 "tid").1) 500
      = some (create_access_token (some "1") none none (some 1800) 100 "tid").1.claims ∧
    verify_token
      (.signed (create_access_token (some "1") none none (some 1800) 100 "tid").1) 2000
      = none ∧
    verify_token (.signed
      { claims := (create_access_token (some "1") none none (some 1800) 100 "tid").1.claims,
        key := "other", alg := ALGORITHM }) 500 = none ∧
    verify_token (.malformed "junk") 500 = none :=
  issued_token_verifies_until_expiry (some "1") none none 1800 100 500 2000
    "tid" "other" "junk" (by decide) (by decide) (by decide)

/-- C1 (code bug, exhibited): after Alice logs out — her session row for
`tid1` is closed, no active session remains — presenting the same
still-unexpired bearer token to `get_current_user` still yields her as the
authenticated principal: the guard never consults the session table. -/
theorem logged_out_token_still_authenticates :
    (logout aliceLoggedIn (.signed aliceToken) 200).1
      = .ok "Successfully logged out" ∧
    get_active_sessions (logout aliceLoggedIn (.signed aliceToken) 200).2 1
      = [] ∧
    verify_token (.signed aliceToken) 300 = some aliceToken.claims ∧
    get_current_user (logout aliceLoggedIn (.signed aliceToken) 200).2
      (.signed aliceToken) 300 = .ok aliceActive := by decide

/-- C2 (code bug, exhibited): Alice is blocked and presents her correct
password, yet login fails with the generic 401 "Incorrect email or
password" rather than a 403 mentioning her status:
`authenticate_user` tests `is_active()` before the password, so the login
endpoint's status-specific 403 branch is unreachable. -/
theorem blocked_login_with_correct_password_is_generic_401 :
    aliceBlocked.status = .blocked ∧
    verify_password "Sw0rd!abc" aliceBlocked.password = true ∧
    login { users := [aliceBlocked], sessions := [] } "alice@x.com"
        "Sw0rd!abc" 100 "tid9" none none
      = (.error (.unauthorized "Incorrect email or password"),
         { users := [aliceBlocked], sessions := [] }) := by decide

/-- C3 counterexample: `resend_verification` does not respond identically —
for a registered-but-unverified address it answers "Verification email sent
successfully. Please check your inbox.", for an unregistered address "If
the email exists and is unverified, a verification link has been sent.". -/
theorem resend_verification_distinguishes_registered :
    (resend_verification { users := [bobUnverified], sessions := [] }
        "bob@x.com" 100 "newtok").1
      = .ok { message := "Verification email sent successfully. Please check your inbox.",
              success := true, is_verified := some false } ∧
    (resend_verification { users := [bobUnverified], sessions := [] }
        "nobody@x.com" 100 "newtok").1
      = .ok { message := "If the email exists and is unverified, a verification link has been sent.",
              success := true, is_verified := none } ∧
    (resend_verification { users := [bobUnverified], sessions := [] }
        "bob@x.com" 100 "newtok").1
      ≠ (resend_verification { users := [bobUnverified], sessions := [] }
          "nobody@x.com" 100 "newtok").1 := by decide

/-- C3 amended: `forgot_password` answers with the identical affirmative
link-sent message for an unregistered address and for a registered active
account (minting a token only in the latter case), but answers with a
distinct "Account is not active" message for a registered non-active
account; `resend_verification` answers differently for an unregistered
address, a verified account, and an unverified account. -/
theorem enumeration_responses_by_account_state (st : DBState) (e : String)
    (now : Nat) (t : String) (hval : (validate_email e).1 = true) :
    (get_user_by_email st (toLowerStr e) = none →
      forgot_password st e now t
        = (.ok { message := "If the email exists, a reset link has been sent.",
                 success := true }, st) ∧
      resend_verification st e now t
        = (.ok { message := "If the email exists and is unverified, a verification link has been sent.",
                 success := true, is_verified := none }, st)) ∧
    (∀ u, get_user_by_email st (toLowerStr e) = some u →
      (u.status = .active →
        (forgot_password st e now t).1
          = .ok { message := "If the email exists, a reset link has been sent.",
                  success := true }) ∧
      (u.status ≠ .active →
        (forgot_password st e now t).1
          = .ok { message := "Account is not active. Please contact support.",
                  success := false }) ∧
      (u.is_email_verified = true →
        (resend_verification st e now t).1
          = .ok { message := "Email is already verified.", success := true,
                  is_verified := some true }) ∧
      (u.is_email_verified = false →
        can_resend_verification st u.id 5 now = true →
        (resend_verification st e now t).1
          = .ok { message := "Verification email sent successfully. Please check your inbox.",
                  success := true, is_verified := some false })) := by
  constructor
  · intro hnone
    simp [forgot_password, resend_verification, hval, hnone]
  · intro u hu
    refine ⟨fun hact => ?_, fun hnotact => ?_, fun hver => ?_,
      fun hunver hcan => ?_⟩
    · simp [forgot_password, hval, hu, hact]
    · simp [forgot_password, hval, hu, hnotact]
    · simp [resend_verification, hval, hu, hver]
    · simp [resend_verification, hval, hu, hunver, hcan]

/-- Concrete instantiation of `enumeration_responses_by_account_state` at
Bob's (unverified, active) single-user state and his registered address. -/
theorem enumeration_responses_witness :
    (resend_verification { users := [bobUnverified], sessions := [] }
        "bob@x.com" 100 "tok2").1
      = .ok { message := "Verification email sent successfully. Please check your inbox.",
              success := true, is_verified := some false } :=
  ((enumeration_responses_by_account_state
      { users := [bobUnverified], sessions := [] } "bob@x.com" 100 "tok2"
      (by decide)).2 bobUnverified (by decide)).2.2.2 (by decide) (by decide)

/-- C4 counterexample: with two active admins, suspending the *other* admin
succeeds (no admin-target guard on suspend), and the self-target guard on
block answers HTTP 400 Bad Request, not 403 Forbidden. -/
theorem admin_can_suspend_another_admin :
    (suspend_user { users := [adminRoot, adminEve], sessions := [] }
        adminRoot 11 none 100).1
      = .ok ("User Eve has been suspended",
          { adminEve with status := .suspended, blocked_at := some 100,
                          blocked_by := some 10, updated_at := 100 }) ∧
    (block_user { users := [adminRoot, adminEve], sessions := [] }
        adminRoot 10 none 100).1
      = .error (.badRequest "Cannot block yourself") := by decide

/-- C4 amended: for an active admin actor and an existing target, block
fails (HTTP 400 Bad Request) when the target is the actor and when the
target's role is admin; suspend fails (HTTP 400) only when the target is
the actor — an admin CAN suspend another admin; unblock has neither guard,
so an admin can unblock any existing target, another admin included. -/
theorem admin_status_change_guards (st : DBState) (actor target : User)
    (uid : Nat) (reason : Option String) (now : Nat)
    (hrole : actor.role = "admin") (hact : actor.status = .active)
    (hfind : get_user st uid = some target) :
    (target.id = actor.id →
      (block_user st actor uid reason now).1
        = .error (.badRequest "Cannot block yourself") ∧
      (suspend_user st actor uid reason now).1
        = .error (.badRequest "Cannot suspend yourself")) ∧
    (target.id ≠ actor.id → target.role = "admin" →
      (block_user st actor uid reason now).1
        = .error (.badRequest "Cannot block other administrators") ∧
      (suspend_user st actor uid reason now).2
        = dal_suspend_user st uid actor.id reason now ∧
      (∃ msg upd, (suspend_user st actor uid reason now).1
        = .ok (msg, upd))) ∧
    ((unblock_user st actor uid now).2 = dal_unblock_user st uid now ∧
      ∃ msg upd, (unblock_user st actor uid now).1 = .ok (msg, upd)) := by
  have hadmin : require_admin actor = .ok actor := by
    simp [require_admin, User.is_active, hrole, hact]
  refine ⟨fun hself => ?_, fun hother hadm => ?_, ?_⟩
  · constructor <;>
      simp [block_user, suspend_user, hadmin, hfind, hself]
  · refine ⟨?_, ?_, ?_⟩
    · simp [block_user, hadmin, hfind, hother, hadm]
    · simp only [suspend_user, hadmin, hfind]
      simp only [beq_iff_eq, hother, if_false]
      cases h : get_user (dal_suspend_user st uid actor.id reason now) uid <;>
        simp
    · simp only [suspend_user, hadmin, hfind]
      simp only [beq_iff_eq, hother, if_false]
      cases h : get_user (dal_suspend_user st uid actor.id reason now) uid <;>
        simp
  · constructor
    · simp only [unblock_user, hadmin, hfind]
      cases h : get_user (dal_unblock_user st uid now) uid <;> simp
    · simp only [unblock_user, hadmin, hfind]
      cases h : get_user (dal_unblock_user st uid now) uid <;> simp

/-- Concrete instantiation of `admin_status_change_guards`: admin Root may
unblock admin Eve. -/
theorem admin_unblock_admin_witness :
    (unblock_user { users := [adminRoot, adminEve], sessions := [] }
        adminRoot 11 100).2
      = dal_unblock_user { users := [adminRoot, adminEve], sessions := [] }
          11 100 ∧
    ∃ msg upd,
      (unblock_user { users := [adminRoot, adminEve], sessions := [] }
          adminRoot 11 100).1 = .ok (msg, upd) :=
  (admin_status_change_guards { users := [adminRoot, adminEve], sessions := [] }
    adminRoot adminEve 11 none 100 (by decide) (by decide) (by decide)).2.2

/-- C9: redeeming a reset token past its stored expiry fails with the
expired-token error, and the same operation's surviving state change clears
the stored token hash and expiry, so the account is left without an
outstanding reset token (a new one can be issued). -/
theorem expired_reset_redemption_clears_token (st : DBState) (t pw : String)
    (now : Nat) (u : User)
    (hpw : (validate_password_strength pw).1 = true)
    (hfind : get_user_by_reset_token st (hash_token t) = some u)
    (hexp : is_token_expired u.reset_token_expires now = true) :
    reset_password st t pw now
      = (.error (.badRequest "Reset token has expired. Please request a new one."),
         clear_password_reset_token st u.id now) ∧
    ∀ v ∈ (clear_password_reset_token st u.id now).users, v.id = u.id →
      v.reset_token = none ∧ v.reset_token_expires = none := by
  constructor
  · simp [reset_password, hpw, hfind, hexp]
  · intro v hv hvid
    simp only [clear_password_reset_token, updateUserById] at hv
    rcases List.mem_map.mp hv with ⟨a, _, rfl⟩
    by_cases h : a.id = u.id
    · simp [h]
    · simp only [beq_iff_eq, h, if_false] at hvid

/-- Concrete instantiation of `expired_reset_redemption_clears_token`:
Carol's token (expiry 1000) presented at time 2000. -/
theorem expired_reset_redemption_witness :
    reset_password { users := [carolReset], sessions := [] } "rtok"
        "NewPass1!" 2000
      = (.error (.badRequest "Reset token has expired. Please request a new one."),
         clear_password_reset_token { users := [carolReset], sessions := [] }
           3 2000) ∧
    ∀ v ∈ (clear_password_reset_token { users := [carolReset], sessions := [] }
        3 2000).users, v.id = 3 →
      v.reset_token = none ∧ v.reset_token_expires = none := by
  have h := expired_reset_redemption_clears_token
    { users := [carolReset], sessions := [] } "rtok" "NewPass1!" 2000
    carolReset (by decide) (by decide) (by decide)
  exact h

/-- C5: a live reset token redeems at most once: the successful redemption
stores the new password hash and clears the stored token hash and expiry in
the same state change, and a second redemption of the same raw token fails
with the invalid-token error, leaving the state unchanged.  The uniqueness
hypothesis says no other row holds the same token hash. -/
theorem reset_token_single_use (st : DBState) (t pw pw2 : String)
    (now now2 : Nat) (u : User)
    (hpw : (validate_password_strength pw).1 = true)
    (hpw2 : (validate_password_strength pw2).1 = true)
    (hfind : get_user_by_reset_token st (hash_token t) = some u)
    (hlive : is_token_expired u.reset_token_expires now = false)
    (huniq : ∀ v ∈ st.users, v.reset_token = some (hash_token t) →
      v.id = u.id) :
    reset_password st t pw now
      = (.ok { message := "Password has been reset successfully. You can now login with your new password.",
               success := true },
         update_password_with_reset st u.id pw now) ∧
    (∀ v ∈ (update_password_with_reset st u.id pw now).users, v.id = u.id →
      v.password = hash_password pw ∧ v.reset_token = none ∧
      v.reset_token_expires = none) ∧
    reset_password (update_password_with_reset st u.id pw now) t pw2 now2
      = (.error (.badRequest "Invalid or expired reset token"),
         update_password_with_reset st u.id pw now) := by
  refine ⟨?_, ?_, ?_⟩
  · simp [reset_password, hpw, hfind, hlive]
  · intro v hv hvid
    simp only [update_password_with_reset, updateUserById] at hv
    rcases List.mem_map.mp hv with ⟨a, _, rfl⟩
    by_cases h : a.id = u.id
    · simp [h]
    · simp only [beq_iff_eq, h, if_false] at hvid
  · have hnone : get_user_by_reset_token
        (update_password_with_reset st u.id pw now) (hash_token t) = none := by
      apply List.find?_eq_none.mpr
      intro v hv
      simp only [update_password_with_reset, updateUserById] at hv
      rcases List.mem_map.mp hv with ⟨a, ha, rfl⟩
      by_cases h : a.id = u.id
      · simp [h]
      · simp only [beq_iff_eq, h, if_false]
        intro hmem
        exact h (huniq a ha (by simpa using hmem))
    simp [reset_password, hpw2, hnone]

/-- Concrete instantiation of `reset_token_single_use`: Carol's live token
redeemed at time 500, then presented again at time 600. -/
theorem reset_token_single_use_witness :
    reset_password { users := [carolReset], sessions := [] } "rtok"
        "NewPass1!" 500
      = (.ok { message := "Password has been reset successfully. You can now login with your new password.",
               success := true },
         update_password_with_reset { users := [carolReset], sessions := [] }
           3 "NewPass1!" 500) ∧
    (∀ v ∈ (update_password_with_reset { users := [carolReset], sessions := [] }
        3 "NewPass1!" 500).users, v.id = 3 →
      v.password = hash_password "NewPass1!" ∧ v.reset_token = none ∧
      v.reset_token_expires = none) ∧
    reset_password
        (update_password_with_reset { users := [carolReset], sessions := [] }
          3 "NewPass1!" 500) "rtok" "NewPass2!" 600
      = (.error (.badRequest "Invalid or expired reset token"),
         update_password_with_reset { users := [carolReset], sessions := [] }
           3 "NewPass1!" 500) := by
  have h := reset_token_single_use { users := [carolReset], sessions := [] }
    "rtok" "NewPass1!" "NewPass2!" 500 600 carolReset (by decide) (by decide)
    (by decide) (by decide) (by decide)
  exact h

/-- C8: with all field validators passing, `register` fails with the
duplicate-email Conflict error when an account with the normalized email
already exists, and otherwise creates exactly one account with
`status=active`, `is_email_verified=false`, `role=user`, storing only the
password hash; and the outcome depends on the presented email only through
its lowercased form, so the comparison is case-insensitive. -/
theorem register_conflict_and_defaults (st : DBState)
    (rawName rawEmail rawMobile pw : String) (now newId : Nat)
    (hname1 : 2 ≤ (stripStr rawName).length)
    (hname2 : (stripStr rawName).length ≤ 100)
    (hemail : (validate_email rawEmail).1 = true)
    (hmobile : (validate_mobile rawMobile).1 = true)
    (hpw : (validate_password_strength pw).1 = true) :
    ((∃ u ∈ st.users, u.email = stripStr (toLowerStr rawEmail)) →
      register st rawName rawEmail rawMobile pw now newId
        = (.error (.badRequest "Email already registered"), st)) ∧
    ((∀ u ∈ st.users, u.email ≠ stripStr (toLowerStr rawEmail)) →
      ∃ nu : User,
        register st rawName rawEmail rawMobile pw now newId
          = (.ok nu, { st with users := st.users ++ [nu] }) ∧
        nu.status = .active ∧ nu.is_email_verified = false ∧
        nu.role = "user" ∧ nu.password = hash_password pw ∧
        nu.email = stripStr (toLowerStr rawEmail)) ∧
    (∀ e2 : String, (validate_email e2).1 = true →
      toLowerStr rawEmail = toLowerStr e2 →
      register st rawName rawEmail rawMobile pw now newId
        = register st rawName e2 rawMobile pw now newId) := by
  have h1 : ¬ ((stripStr rawName).length < 2) := by omega
  have h2 : ¬ ((stripStr rawName).length > 100) := by omega
  refine ⟨?_, ?_, ?_⟩
  · rintro ⟨u0, hu0, he0⟩
    cases hfound : get_user_by_email st (stripStr (toLowerStr rawEmail)) with
    | none =>
      exfalso
      have := List.find?_eq_none.mp hfound u0 hu0
      simp [he0] at this
    | some w =>
      simp [register, h1, h2, hemail, hmobile, hpw, hfound]
  · intro hmiss
    have hfound : get_user_by_email st (stripStr (toLowerStr rawEmail))
        = none := by
      apply List.find?_eq_none.mpr
      intro v hv
      simp [hmiss v hv]
    refine ⟨create_user_row (stripStr rawName)
      (stripStr (toLowerStr rawEmail)) (stripStr rawMobile) pw now newId,
      ?_, rfl, rfl, rfl, rfl, rfl⟩
    simp [register, h1, h2, hemail, hmobile, hpw, hfound]
  · intro e2 he2 hlow
    simp [register, h1, h2, hemail, he2, hmobile, hpw, hlow]

/-- Concrete instantiation of `register_conflict_and_defaults`:
registering `"ALICE@x.com"` against a store already holding
`alice@x.com` fails with the duplicate-email error. -/
theorem register_conflict_witness :
    register { users := [aliceActive], sessions := [] } "Zed" "ALICE@x.com"
        "123456789" "Abcdef1!" 5 7
      = (.error (.badRequest "Email already registered"),
         { users := [aliceActive], sessions := [] }) :=
  (register_conflict_and_defaults { users := [aliceActive], sessions := [] }
    "Zed" "ALICE@x.com" "123456789" "Abcdef1!" 5 7 (by decide) (by decide)
    (by decide) (by decide) (by decide)).1
    ⟨aliceActive, by decide, by decide⟩

/-- C10: redeeming a verification token whose account is already verified
answers "Email is already verified." with no state change, before any
expiry check; and the expired-token error of `verify_email` is reachable
only when the matched account is unverified. -/
theorem verify_email_already_verified_short_circuits :
    (∀ st t now u,
      get_user_by_verification_token st (hash_token t) = some u →
      u.is_email_verified = true →
      verify_email st t now
        = (.ok { message := "Email is already verified.", success := true,
                 is_verified := some true }, st)) ∧
    (∀ st t now st1, verify_email st t now
        = (.error (.badRequest
            "Verification token has expired. Please request a new one."),
           st1) →
      ∃ u, get_user_by_verification_token st (hash_token t) = some u ∧
        u.is_email_verified = false ∧
        st1 = clear_email_verification_token st u.id now) := by
  constructor
  · intro st t now u hfind hver
    simp [verify_email, hfind, hver]
  · intro st t now st1 h
    cases hfind : get_user_by_verification_token st (hash_token t) with
    | none =>
      rw [verify_email, hfind] at h
      have := congrArg Prod.fst h
      simp at this
    | some u =>
      rw [verify_email, hfind] at h
      by_cases hv : u.is_email_verified
      · simp [hv] at h
      · simp only [hv, if_false, Bool.false_eq_true, ite_false] at h
        by_cases hexp : is_token_expired u.email_verification_expires now
        · simp only [hexp, if_true, ite_true] at h
          exact ⟨u, rfl, by simpa using hv,
            (congrArg Prod.snd h).symm⟩
        · simp [hexp] at h

/-- Concrete instantiation of
`verify_email_already_verified_short_circuits`: Dan is verified, his stored
token long past expiry (10), yet redeeming it at time 99999 answers
success with no state change. -/
theorem verify_email_already_verified_witness :
    verify_email { users := [danVerified], sessions := [] } "dtok" 99999
      = (.ok { message := "Email is already verified.", success := true,
               is_verified := some true },
         { users := [danVerified], sessions := [] }) :=
  verify_email_already_verified_short_circuits.1
    { users := [danVerified], sessions := [] } "dtok" 99999 danVerified
    (by decide) (by decide)

end UserService
